import Mathlib

/-!
Verification of the cmsdetector repository: a shallow embedding of the Go
package that classifies CMS/PKCS byte buffers, together with theorems
settling the frozen claims about it.

Byte buffers are modelled as `List Nat` (each element a byte value below
256; universal theorems that need this carry it as a hypothesis).  The
embedding follows the Go sources: the detector file with the encrypted
PKCS#12 fallback (Detect, isEncryptedPKCS12, IsPKCS7Data, IsPKCS7SignedData,
IsPKCS7EnvelopedData, IsPKCS12, IsUserKeyPKCS12, GetOIDDescription) and the
key-detection file (the heuristic IsUserKeyPKCS12 variant, modelled here as
IsUserKeyPKCS12key, and IsNCAKeyPKCS12), plus the subset of the Go
encoding/asn1 unmarshaller that the ContentInfo structure exercises.
-/

/-- OID constant 1.2.840.113549.1.7.1 (PKCS7DataOID in the source). -/
def PKCS7DataOID : List Nat := [1, 2, 840, 113549, 1, 7, 1]

/-- OID constant 1.2.840.113549.1.7.2 (PKCS7SignedDataOID in the source). -/
def PKCS7SignedDataOID : List Nat := [1, 2, 840, 113549, 1, 7, 2]

/-- OID constant 1.2.840.113549.1.7.3 (PKCS7EnvelopedDataOID in the source). -/
def PKCS7EnvelopedDataOID : List Nat := [1, 2, 840, 113549, 1, 7, 3]

/-- OID constant 1.2.840.113549.1.7.4 (PKCS7SignedAndEnvelopedOID in the source). -/
def PKCS7SignedAndEnvelopedOID : List Nat := [1, 2, 840, 113549, 1, 7, 4]

/-- OID constant 1.2.840.113549.1.7.5 (PKCS7DigestedDataOID in the source). -/
def PKCS7DigestedDataOID : List Nat := [1, 2, 840, 113549, 1, 7, 5]

/-- OID constant 1.2.840.113549.1.7.6 (PKCS7EncryptedDataOID in the source). -/
def PKCS7EncryptedDataOID : List Nat := [1, 2, 840, 113549, 1, 7, 6]

/-- OID constant 1.2.840.113549.1.12.10.1 (PKCS12OID in the source). -/
def PKCS12OID : List Nat := [1, 2, 840, 113549, 1, 12, 10, 1]

/-- The heuristic-only type label, TypeEncryptedPKCS12 in the source. -/
def TypeEncryptedPKCS12 : String := "Encrypted PKCS#12"

/-- Byte pattern 0x02 0x01 0x03 (ASN.1 INTEGER 3), versionBytes in the source. -/
def versionBytes : List Nat := [0x02, 0x01, 0x03]

/-- DER byte form of the PKCS#12 OID, pkcs12Signature in the source. -/
def pkcs12Signature : List Nat :=
  [0x2A, 0x86, 0x48, 0x86, 0xF7, 0x0D, 0x01, 0x0C, 0x0A, 0x01]

/-- Bytes of the ASCII string KEY. -/
def keyBytes : List Nat := [0x4B, 0x45, 0x59]

/-- Bytes of the ASCII string PrivateKey. -/
def privateKeyBytes : List Nat :=
  [0x50, 0x72, 0x69, 0x76, 0x61, 0x74, 0x65, 0x4B, 0x65, 0x79]

/-- Bytes of the ASCII string GOST. -/
def gostBytes : List Nat := [0x47, 0x4F, 0x53, 0x54]

/-- UTF-8 bytes of the Cyrillic string GOST (uppercase). -/
def gostCyrBytes : List Nat := [0xD0, 0x93, 0xD0, 0x9E, 0xD0, 0xA1, 0xD0, 0xA2]

/-- Bytes of the ASCII string gost (lowercase). -/
def gostLowerBytes : List Nat := [0x67, 0x6F, 0x73, 0x74]

/-- Bytes of the ASCII string Kalkan. -/
def kalkanBytes : List Nat := [0x4B, 0x61, 0x6C, 0x6B, 0x61, 0x6E]

/-- Bytes of the ASCII string kalkan (lowercase). -/
def kalkanLowerBytes : List Nat := [0x6B, 0x61, 0x6C, 0x6B, 0x61, 0x6E]

/-- Bytes of the ASCII string KALKAN (uppercase). -/
def kalkanUpperBytes : List Nat := [0x4B, 0x41, 0x4C, 0x4B, 0x41, 0x4E]

/-- UTF-8 bytes of the Cyrillic string Kalkan. -/
def kalkanCyrBytes : List Nat :=
  [0xD0, 0x9A, 0xD0, 0xB0, 0xD0, 0xBB, 0xD0, 0xBA, 0xD0, 0xB0, 0xD0, 0xBD]

/-- Byte signature checked by IsNCAKeyPKCS12, kazakhstanSignature in the source. -/
def kazakhstanSignature : List Nat :=
  [0x06, 0x09, 0x2A, 0x86, 0x48, 0x86, 0xF7, 0x0D, 0x01, 0x01]

/-- Whether the sublist `sub` occurs in `data` starting exactly at index `i`. -/
def containsAt (data sub : List Nat) (i : Nat) : Bool :=
  (data.drop i).take sub.length == sub

/-- Go bytes.Contains: the sublist occurs somewhere in the buffer. -/
def bytesContains (data sub : List Nat) : Bool :=
  (List.range (data.length + 1 - sub.length)).any (fun i => containsAt data sub i)

/-- The comparison bytes.Equal(data[i:i+3], versionBytes) performed inside the
version-scan loops of the source. -/
def versionFoundAt (data : List Nat) (i : Nat) : Bool :=
  data[i]? == some 2 && data[i + 1]? == some 1 && data[i + 2]? == some 3

/-- The version-scan loop shared by isEncryptedPKCS12 and the heuristic
IsUserKeyPKCS12: for i := 0; i < len(data)-3; i++ it compares the 3-byte
window at i against versionBytes.  The loop bound is exactly the bound of
the Go source. -/
def scanVersion (data : List Nat) : Bool :=
  (List.range (data.length - 3)).any (fun i => versionFoundAt data i)

/-- Tag and length header as parsed by Go asn1 parseTagAndLength. -/
structure TagLen where
  tcls : Nat
  tag : Nat
  isCompound : Bool
  len : Nat
deriving DecidableEq

/-- Core loop of Go asn1 parseBase128Int: reads base-128 continuation bytes,
at most five of them, rejecting a leading 0x80 byte and results above
MaxInt32.  `fuel` counts the remaining allowed iterations (five at the
start), `isFirst` tells whether no byte has been consumed yet. -/
def pb128 (bytes : List Nat) (fuel offset ret : Nat) (isFirst : Bool) :
    Option (Nat × Nat) :=
  match bytes[offset]? with
  | none => none
  | some b =>
    match fuel with
    | 0 => none
    | f + 1 =>
      if isFirst && b == 0x80 then none
      else
        let ret2 := ret * 128 + (b &&& 0x7f)
        if b &&& 0x80 == 0 then
          if 2147483647 < ret2 then none else some (ret2, offset + 1)
        else pb128 bytes f (offset + 1) ret2 false

/-- Go asn1 parseBase128Int: returns the decoded integer and the offset just
past its last byte. -/
def parseBase128Int (bytes : List Nat) (initOffset : Nat) : Option (Nat × Nat) :=
  pb128 bytes 5 initOffset 0 true

/-- Tag-number part of Go asn1 parseTagAndLength: `b` is the tag byte already
read, `offset` points just past it.  Low five bits all set means the tag
number follows in base-128 form and must be at least 0x1f. -/
def readTag (bytes : List Nat) (offset b : Nat) : Option (Nat × Nat) :=
  if b &&& 0x1f == 0x1f then
    match parseBase128Int bytes offset with
    | none => none
    | some (t, off) => if t < 0x1f then none else some (t, off)
  else some (b &&& 0x1f, offset)

/-- Long-form length loop of Go asn1 parseTagAndLength: reads `n` length
bytes, rejecting overflow past 2^23 and superfluous leading zeros. -/
def longFormLen (bytes : List Nat) : Nat → Nat → Nat → Option (Nat × Nat)
  | 0, offset, acc => some (acc, offset)
  | n + 1, offset, acc =>
    match bytes[offset]? with
    | none => none
    | some b =>
      if 2 ^ 23 ≤ acc then none
      else
        let acc2 := acc * 256 + b
        if acc2 == 0 then none
        else longFormLen bytes n (offset + 1) acc2

/-- Length part of Go asn1 parseTagAndLength: short form if the top bit of
the first length byte is clear, else long form with a minimality check. -/
def readLength (bytes : List Nat) (offset : Nat) : Option (Nat × Nat) :=
  match bytes[offset]? with
  | none => none
  | some b =>
    if b &&& 0x80 == 0 then some (b &&& 0x7f, offset + 1)
    else
      let numBytes := b &&& 0x7f
      if numBytes == 0 then none
      else
        match longFormLen bytes numBytes (offset + 1) 0 with
        | none => none
        | some (l, off) => if l < 0x80 then none else some (l, off)

/-- Go asn1 parseTagAndLength: reads a tag byte (class, compound flag, tag
number) followed by a DER length. -/
def parseTagAndLength (bytes : List Nat) (initOffset : Nat) :
    Option (TagLen × Nat) :=
  match bytes[initOffset]? with
  | none => none
  | some b =>
    match readTag bytes (initOffset + 1) b with
    | none => none
    | some (tag, off1) =>
      match readLength bytes off1 with
      | none => none
      | some (l, off2) =>
        some ({ tcls := b >>> 6, tag := tag,
                isCompound := b &&& 0x20 == 0x20, len := l }, off2)

/-- Trailing loop of Go asn1 parseObjectIdentifier: decodes the remaining
base-128 components after the combined first two arcs.  Each iteration
consumes at least one byte, so fuel `bytes.length + 1` never runs out
before the offset reaches the end. -/
def parseOIDLoop (bytes : List Nat) : Nat → Nat → List Nat → Option (List Nat)
  | 0, _, _ => none
  | fuel + 1, offset, acc =>
    if bytes.length ≤ offset then some acc
    else
      match parseBase128Int bytes offset with
      | none => none
      | some (v, off) => parseOIDLoop bytes fuel off (acc ++ [v])

/-- Go asn1 parseObjectIdentifier: nonempty contents, first base-128 value
split into the first two arcs, remaining values appended one by one. -/
def parseObjectIdentifier (bytes : List Nat) : Option (List Nat) :=
  if bytes.length = 0 then none
  else
    match parseBase128Int bytes 0 with
    | none => none
    | some (v, offset) =>
      let firstTwo := if v < 80 then [v / 40, v % 40] else [2, v - 80]
      parseOIDLoop bytes (bytes.length + 1) offset firstTwo

/-- Parsing of the ContentType field (an OBJECT IDENTIFIER, tag 0x06) from
the contents of the outer sequence, as Go asn1 parseField does for the
first ContentInfo field: returns the decoded OID and the offset just past
the OID element. -/
def parseOIDField (inner : List Nat) : Option (List Nat × Nat) :=
  if inner.length = 0 then none
  else
    match parseTagAndLength inner 0 with
    | none => none
    | some (t, off) =>
      if t.tcls = 0 ∧ t.tag = 6 ∧ t.isCompound = false then
        if inner.length < off + t.len then none
        else
          match parseObjectIdentifier ((inner.drop off).take t.len) with
          | none => none
          | some oid => some (oid, off + t.len)
      else none

/-- Parsing of the optional Content field (asn1 RawValue, explicit context
tag 0) from the sequence contents starting at `offset`, as Go asn1
parseField does for the second ContentInfo field.  Returns true when the
field parses or is treated as absent, false on a hard error: a malformed
tag or length, an explicit header ending exactly at the end of the
contents, or a declared length past the end of the contents. -/
def parseContentField (inner : List Nat) (offset : Nat) : Bool :=
  if offset = inner.length then true
  else
    match parseTagAndLength inner offset with
    | none => false
    | some (t, off) =>
      if off = inner.length then false
      else
        if t.tcls = 2 ∧ t.tag = 0 ∧ (t.len = 0 ∨ t.isCompound = true) then
          if inner.length < off + t.len then false else true
        else true

/-- Go asn1.Unmarshal of the ContentInfo structure: an outer universal
constructed SEQUENCE whose declared contents hold an OBJECT IDENTIFIER
followed by the optional explicitly tagged content.  Only the extracted
ContentType OID matters downstream, so it is the returned value; `none`
models an unmarshalling error.  Trailing bytes after the sequence, and
extra bytes inside it after the recognized fields, are ignored exactly as
the Go unmarshaller ignores them. -/
def unmarshalContentInfo (data : List Nat) : Option (List Nat) :=
  if data.length = 0 then none
  else
    match parseTagAndLength data 0 with
    | none => none
    | some (t, offset) =>
      if t.tcls = 0 ∧ t.tag = 16 ∧ t.isCompound = true then
        if data.length < offset + t.len then none
        else
          let inner := (data.drop offset).take t.len
          match parseOIDField inner with
          | none => none
          | some (oid, innerOff) =>
            if parseContentField inner innerOff then some oid else none
      else none

/-- Go ObjectIdentifier.String: decimal components joined by dots. -/
def oidString (oid : List Nat) : String :=
  String.intercalate "." (oid.map (fun n => toString n))

/-- The switch on OID equality inside Detect, mapping a content-type OID to
its label. -/
def oidSwitchLabel (oid : List Nat) : String :=
  if oid = PKCS7DataOID then "PKCS#7 Data"
  else if oid = PKCS7SignedDataOID then "PKCS#7 Signed Data"
  else if oid = PKCS7EnvelopedDataOID then "PKCS#7 Enveloped Data"
  else if oid = PKCS7SignedAndEnvelopedOID then "PKCS#7 Signed And Enveloped Data"
  else if oid = PKCS7DigestedDataOID then "PKCS#7 Digested Data"
  else if oid = PKCS7EncryptedDataOID then "PKCS#7 Encrypted Data"
  else if oid = PKCS12OID then "PKCS#12"
  else "Unknown OID: " ++ oidString oid

/-- DetectionResult of the source: type label, content-type OID (empty list
for the nil OID) and the encryption flag. -/
structure DetectionResult where
  type : String
  contentType : List Nat
  isEncrypted : Bool
deriving DecidableEq

/-- isEncryptedPKCS12 from the detector file with the fallback: length floor
20, leading SEQUENCE byte, version-pattern scan, then the PKCS#12 byte
signature, the KEY and PrivateKey markers, and finally the size-range
fallback requiring length strictly between 100 and 100000. -/
def isEncryptedPKCS12 (data : List Nat) : Bool :=
  if data.length < 20 then false
  else if data[0]? ≠ some 0x30 then false
  else if !scanVersion data then false
  else if bytesContains data pkcs12Signature then true
  else if bytesContains data keyBytes || bytesContains data privateKeyBytes then true
  else scanVersion data && decide (100 < data.length) && decide (data.length < 100000)

/-- Detect from the source: strict asn1 unmarshalling first, the OID switch
on success, otherwise the encrypted PKCS#12 heuristic, otherwise an error
(modelled as none). -/
def Detect (data : List Nat) : Option DetectionResult :=
  match unmarshalContentInfo data with
  | some oid =>
    some { type := oidSwitchLabel oid, contentType := oid, isEncrypted := false }
  | none =>
    if isEncryptedPKCS12 data then
      some { type := TypeEncryptedPKCS12, contentType := [], isEncrypted := true }
    else none

/-- IsPKCS7Data from the source. -/
def IsPKCS7Data (data : List Nat) : Bool :=
  match Detect data with
  | none => false
  | some r => decide (r.contentType = PKCS7DataOID)

/-- IsPKCS7SignedData from the source. -/
def IsPKCS7SignedData (data : List Nat) : Bool :=
  match Detect data with
  | none => false
  | some r => decide (r.contentType = PKCS7SignedDataOID)

/-- IsPKCS7EnvelopedData from the source. -/
def IsPKCS7EnvelopedData (data : List Nat) : Bool :=
  match Detect data with
  | none => false
  | some r => decide (r.contentType = PKCS7EnvelopedDataOID)

/-- IsPKCS12 from the detector file with the fallback: PKCS#12 OID or the
encrypted type label. -/
def IsPKCS12 (data : List Nat) : Bool :=
  match Detect data with
  | none => false
  | some r =>
    decide (r.contentType = PKCS12OID) || decide (r.type = TypeEncryptedPKCS12)

/-- IsUserKeyPKCS12 from the detector file with the fallback (the delegating
variant, whose body coincides with IsPKCS12). -/
def IsUserKeyPKCS12 (data : List Nat) : Bool :=
  match Detect data with
  | none => false
  | some r =>
    decide (r.contentType = PKCS12OID) || decide (r.type = TypeEncryptedPKCS12)

/-- GetOIDDescription from the source: the same switch on OID equality. -/
def GetOIDDescription (oid : List Nat) : String :=
  if oid = PKCS7DataOID then "PKCS#7 Data"
  else if oid = PKCS7SignedDataOID then "PKCS#7 Signed Data"
  else if oid = PKCS7EnvelopedDataOID then "PKCS#7 Enveloped Data"
  else if oid = PKCS7SignedAndEnvelopedOID then "PKCS#7 Signed And Enveloped Data"
  else if oid = PKCS7DigestedDataOID then "PKCS#7 Digested Data"
  else if oid = PKCS7EncryptedDataOID then "PKCS#7 Encrypted Data"
  else if oid = PKCS12OID then "PKCS#12"
  else "Unknown OID: " ++ oidString oid

/-- The inline check err == nil && result.ContentType.Equal(PKCS12OID) at the
start of the heuristic IsUserKeyPKCS12 variant. -/
def detectSaysPkcs12 (data : List Nat) : Bool :=
  match Detect data with
  | none => false
  | some r => decide (r.contentType = PKCS12OID)

/-- IsUserKeyPKCS12 from the key-detection file (the heuristic variant that
embeds its own byte scanning): length floor 8, leading SEQUENCE byte,
strict detection of the PKCS#12 OID, then the version scan, the size range
20 to 100000, GOST markers, the PKCS#12 byte signature, KEY and PrivateKey
markers, and finally it returns the version flag (true at that point). -/
def IsUserKeyPKCS12key (data : List Nat) : Bool :=
  if data.length < 8 then false
  else if data[0]? ≠ some 0x30 then false
  else if detectSaysPkcs12 data then true
  else if !scanVersion data then false
  else if data.length < 20 ∨ 100000 < data.length then false
  else if bytesContains data gostBytes || bytesContains data gostCyrBytes
      || bytesContains data gostLowerBytes then true
  else if bytesContains data pkcs12Signature then true
  else if bytesContains data keyBytes || bytesContains data privateKeyBytes then true
  else scanVersion data

/-- IsNCAKeyPKCS12 from the key-detection file: the heuristic user-key check
first, then GOST markers, Kalkan markers in four spellings, and finally the
Kazakhstan byte signature. -/
def IsNCAKeyPKCS12 (data : List Nat) : Bool :=
  if !IsUserKeyPKCS12key data then false
  else if bytesContains data gostBytes || bytesContains data gostCyrBytes then true
  else if bytesContains data kalkanBytes || bytesContains data kalkanLowerBytes
      || bytesContains data kalkanUpperBytes || bytesContains data kalkanCyrBytes then true
  else bytesContains data kazakhstanSignature

/-- Modelled from the claim statement of C10: the predicate that the buffer
has length at least 8, starts with 0x30, and either the strict parse
yields the PKCS#12 OID or the version scan succeeds with the length
between 20 and 100000. -/
def userKeyPolicySpec (data : List Nat) : Bool :=
  decide (8 ≤ data.length) && decide (data[0]? = some 0x30) &&
    (decide (unmarshalContentInfo data = some PKCS12OID) ||
      (scanVersion data && decide (20 ≤ data.length) && decide (data.length ≤ 100000)))

/-- Minimal valid DER envelope for a PKCS#7 OID 1.2.840.113549.1.7.k: a
SEQUENCE holding just the OBJECT IDENTIFIER, with the optional content
field absent. -/
def minEnv7 (k : Nat) : List Nat :=
  [0x30, 0x0B, 0x06, 0x09, 0x2A, 0x86, 0x48, 0x86, 0xF7, 0x0D, 0x01, 0x07, k]

/-- Minimal valid DER envelope for the PKCS#12 OID 1.2.840.113549.1.12.10.1. -/
def minEnv12 : List Nat :=
  [0x30, 0x0C, 0x06, 0x0A, 0x2A, 0x86, 0x48, 0x86, 0xF7, 0x0D, 0x01, 0x0C, 0x0A, 0x01]

/-- Minimal valid DER envelope for the unknown OID 1.2.3.4.5. -/
def envUnknown : List Nat := [0x30, 0x06, 0x06, 0x04, 0x2A, 0x03, 0x04, 0x05]

/-- A 22-byte buffer that is a well-formed ContentInfo envelope with the
PKCS#7 Data OID whose tagged content bytes contain the string KEY and the
version pattern 0x02 0x01 0x03. -/
def keyEnvelope : List Nat :=
  [0x30, 0x14, 0x06, 0x09, 0x2A, 0x86, 0x48, 0x86, 0xF7, 0x0D, 0x01, 0x07, 0x01,
   0xA0, 0x07, 0x4B, 0x45, 0x59, 0x02, 0x01, 0x03, 0x00]

/-- A 50-byte buffer that starts with 0x30, fails strict parsing (its first
inner element is an INTEGER, not an OID), contains the version pattern at
offset 2, and contains none of the marker byte sequences. -/
def noMarkerBuf : List Nat :=
  [0x30, 0x02, 0x02, 0x01, 0x03] ++ List.replicate 45 0

/-- A 5-byte buffer whose only occurrence of the version pattern is its
final three bytes. -/
def tailPatternBuf : List Nat := [0x00, 0x00, 0x02, 0x01, 0x03]

/-- A 30-byte buffer that passes the heuristic user-key check through the
lowercase gost marker but carries none of the markers that IsNCAKeyPKCS12
recognizes. -/
def lowerGostBuf : List Nat :=
  [0x30, 0x02, 0x02, 0x01, 0x03, 0x67, 0x6F, 0x73, 0x74] ++ List.replicate 21 0

/-- A 20-byte buffer that fails strict parsing, starts with 0x30, contains
the version pattern at offset 2 and the string KEY at offset 5. -/
def keyHeuristicBuf : List Nat :=
  [0x30, 0x12, 0x02, 0x01, 0x03, 0x4B, 0x45, 0x59] ++ List.replicate 12 0

/-- A 150-byte buffer that starts with 0x30, contains the version pattern at
offset 2 and no marker byte sequences at all. -/
def plainVersionBuf : List Nat :=
  [0x30, 0x00, 0x02, 0x01, 0x03] ++ List.replicate 145 0

/-- A 30-byte buffer like lowerGostBuf but carrying the uppercase GOST
marker. -/
def upperGostBuf : List Nat :=
  [0x30, 0x02, 0x02, 0x01, 0x03, 0x47, 0x4F, 0x53, 0x54] ++ List.replicate 21 0

/-- C1: for each of the six PKCS#7 OIDs and the PKCS#12 OID, Detect on the
minimal valid DER envelope carrying that OID succeeds with the OID as
ContentType, the canonical mapped label as Type, and IsEncrypted false. -/
theorem c1_detect_known_oids :
    Detect (minEnv7 1) = some ⟨"PKCS#7 Data", PKCS7DataOID, false⟩ ∧
    Detect (minEnv7 2) = some ⟨"PKCS#7 Signed Data", PKCS7SignedDataOID, false⟩ ∧
    Detect (minEnv7 3) = some ⟨"PKCS#7 Enveloped Data", PKCS7EnvelopedDataOID, false⟩ ∧
    Detect (minEnv7 4) =
      some ⟨"PKCS#7 Signed And Enveloped Data", PKCS7SignedAndEnvelopedOID, false⟩ ∧
    Detect (minEnv7 5) = some ⟨"PKCS#7 Digested Data", PKCS7DigestedDataOID, false⟩ ∧
    Detect (minEnv7 6) = some ⟨"PKCS#7 Encrypted Data", PKCS7EncryptedDataOID, false⟩ ∧
    Detect minEnv12 = some ⟨"PKCS#12", PKCS12OID, false⟩ := by
  decide

/-- C2 counterexample: keyEnvelope satisfies every hypothesis of the claim
(leading 0x30, version pattern present, KEY present, length between 20 and
100000), yet Detect classifies it by its OID as plain PKCS#7 Data with
IsEncrypted false, and IsPKCS12 returns false. -/
theorem c2_counterexample :
    keyEnvelope[0]? = some 0x30 ∧
    bytesContains keyEnvelope versionBytes = true ∧
    bytesContains keyEnvelope keyBytes = true ∧
    20 ≤ keyEnvelope.length ∧ keyEnvelope.length ≤ 100000 ∧
    Detect keyEnvelope = some ⟨"PKCS#7 Data", PKCS7DataOID, false⟩ ∧
    IsPKCS12 keyEnvelope = false := by
  decide

/-- C6 counterexample: in tailPatternBuf the pattern 0x02 0x01 0x03 occurs
exactly as the final three bytes (offset 2 with length 5), yet the version
scan of the source reports it as not found. -/
theorem c6_counterexample :
    tailPatternBuf[2]? = some 2 ∧ tailPatternBuf[3]? = some 1 ∧
    tailPatternBuf[4]? = some 3 ∧ 2 + 3 = tailPatternBuf.length ∧
    scanVersion tailPatternBuf = false := by
  decide

/-- C5 counterexample: on noMarkerBuf the heuristic IsUserKeyPKCS12 variant
of the key-detection file returns true while IsPKCS12 (and the delegating
IsUserKeyPKCS12 variant) return false, so the two predicates named
IsUserKeyPKCS12 do not both agree with IsPKCS12. -/
theorem c5_counterexample :
    IsUserKeyPKCS12key noMarkerBuf = true ∧
    IsPKCS12 noMarkerBuf = false ∧
    IsUserKeyPKCS12 noMarkerBuf = false := by
  decide

/-- C7 counterexample: noMarkerBuf passes the structural gates of the
general check (length 50 with floor 20, leading 0x30, version pattern
found) and contains no marker byte sequence, its length lies in the range
20 to 100000, yet isEncryptedPKCS12 returns false because its no-marker
fallback requires length strictly above 100. -/
theorem c7_counterexample :
    noMarkerBuf[0]? = some 0x30 ∧
    scanVersion noMarkerBuf = true ∧
    bytesContains noMarkerBuf pkcs12Signature = false ∧
    bytesContains noMarkerBuf keyBytes = false ∧
    bytesContains noMarkerBuf privateKeyBytes = false ∧
    bytesContains noMarkerBuf gostBytes = false ∧
    20 ≤ noMarkerBuf.length ∧ noMarkerBuf.length ≤ 100000 ∧
    isEncryptedPKCS12 noMarkerBuf = false := by
  decide

/-- C8 counterexample: lowerGostBuf satisfies the general heuristic check
(IsUserKeyPKCS12key) and contains the substring GOST in lowercase letters,
yet IsNCAKeyPKCS12 returns false, because the regional predicate only
recognizes the exact spellings GOST and the Cyrillic one. -/
theorem c8_counterexample :
    IsUserKeyPKCS12key lowerGostBuf = true ∧
    bytesContains lowerGostBuf gostLowerBytes = true ∧
    IsNCAKeyPKCS12 lowerGostBuf = false := by
  decide

/-- If the version pattern occurs at an offset whose window ends strictly
before the end of the buffer, the version scan finds it. -/
theorem scanVersion_intro (data : List Nat) (i : Nat) (hi : i + 3 < data.length)
    (hv : versionFoundAt data i = true) : scanVersion data = true := by
  have hex : ∃ x ∈ List.range (data.length - 3), versionFoundAt data x = true :=
    ⟨i, List.mem_range.mpr (by omega), hv⟩
  simpa [scanVersion, List.any_eq_true] using hex

/-- C6 amended: the version scan reports the pattern as found exactly when
0x02 0x01 0x03 occurs at an offset i with i + 3 strictly below the buffer
length, that is anywhere except as the final three bytes. -/
theorem c6_amended_scan_characterization (data : List Nat) :
    scanVersion data = true ↔
      ∃ i, i + 3 < data.length ∧ data[i]? = some 2 ∧
        data[i + 1]? = some 1 ∧ data[i + 2]? = some 3 := by
  unfold scanVersion versionFoundAt
  rw [List.any_eq_true]
  constructor
  · rintro ⟨i, hmem, hp⟩
    have hi := List.mem_range.mp hmem
    simp only [Bool.and_eq_true, beq_iff_eq] at hp
    exact ⟨i, by omega, hp.1.1, hp.1.2, hp.2⟩
  · rintro ⟨i, hi, h1, h2, h3⟩
    exact ⟨i, List.mem_range.mpr (by omega), by simp [h1, h2, h3]⟩

/-- A string starting with the Unknown OID prefix is never the encrypted
PKCS#12 label. -/
theorem unknownLabel_ne (s : String) : "Unknown OID: " ++ s ≠ TypeEncryptedPKCS12 := by
  intro h
  have h2 : ("Unknown OID: " ++ s).data.head? = TypeEncryptedPKCS12.data.head? := by
    rw [h]
  have h3 : ("Unknown OID: " ++ s).data.head? = some 'U' := by
    cases s with
    | mk l => rfl
  rw [h3] at h2
  exact absurd h2 (by decide)

/-- The OID switch of Detect never produces the encrypted PKCS#12 label. -/
theorem oidSwitchLabel_ne_encrypted (oid : List Nat) :
    oidSwitchLabel oid ≠ TypeEncryptedPKCS12 := by
  unfold oidSwitchLabel
  repeat' split
  all_goals try decide
  exact unknownLabel_ne _

/-- When strict unmarshalling succeeds, Detect returns the OID switch result
with the extracted OID and the encryption flag cleared. -/
theorem detect_parse_success {data oid : List Nat}
    (h : unmarshalContentInfo data = some oid) :
    Detect data = some ⟨oidSwitchLabel oid, oid, false⟩ := by
  unfold Detect
  rw [h]

/-- C3: on every buffer where the strict ASN.1 parse succeeds, Detect
returns the OID-switch result, whose IsEncrypted field is false and whose
Type is never the encrypted PKCS#12 label; when the extracted OID is the
PKCS#12 OID the Type is the plain PKCS#12 label. -/
theorem c3_no_encrypted_via_parse (data oid : List Nat)
    (h : unmarshalContentInfo data = some oid) :
    Detect data = some ⟨oidSwitchLabel oid, oid, false⟩ ∧
    oidSwitchLabel oid ≠ TypeEncryptedPKCS12 ∧
    (oid = PKCS12OID → oidSwitchLabel oid = "PKCS#12") := by
  refine ⟨detect_parse_success h, oidSwitchLabel_ne_encrypted oid, ?_⟩
  intro h12
  subst h12
  decide

/-- Witness for C3 at the minimal PKCS#12 envelope. -/
theorem c3_witness :
    Detect minEnv12 = some ⟨oidSwitchLabel PKCS12OID, PKCS12OID, false⟩ ∧
    oidSwitchLabel PKCS12OID ≠ TypeEncryptedPKCS12 ∧
    (PKCS12OID = PKCS12OID → oidSwitchLabel PKCS12OID = "PKCS#12") :=
  c3_no_encrypted_via_parse minEnv12 PKCS12OID (by decide)

/-- C9: whenever the strict parse extracts an OID outside the fixed known
set, Detect succeeds with the Unknown OID label built from the dotted
decimal form, and GetOIDDescription agrees; at the concrete OID 1.2.3.4.5
the description is the literal Unknown OID: 1.2.3.4.5. -/
theorem c9_unknown_oid :
    (∀ data oid, unmarshalContentInfo data = some oid →
      oid ≠ PKCS7DataOID → oid ≠ PKCS7SignedDataOID → oid ≠ PKCS7EnvelopedDataOID →
      oid ≠ PKCS7SignedAndEnvelopedOID → oid ≠ PKCS7DigestedDataOID →
      oid ≠ PKCS7EncryptedDataOID → oid ≠ PKCS12OID →
      Detect data = some ⟨"Unknown OID: " ++ oidString oid, oid, false⟩ ∧
      GetOIDDescription oid = "Unknown OID: " ++ oidString oid) ∧
    GetOIDDescription [1, 2, 3, 4, 5] = "Unknown OID: 1.2.3.4.5" := by
  constructor
  · intro data oid h h1 h2 h3 h4 h5 h6 h7
    have hl : oidSwitchLabel oid = "Unknown OID: " ++ oidString oid := by
      unfold oidSwitchLabel
      rw [if_neg h1, if_neg h2, if_neg h3, if_neg h4, if_neg h5, if_neg h6, if_neg h7]
    have hg : GetOIDDescription oid = "Unknown OID: " ++ oidString oid := by
      unfold GetOIDDescription
      rw [if_neg h1, if_neg h2, if_neg h3, if_neg h4, if_neg h5, if_neg h6, if_neg h7]
    refine ⟨?_, hg⟩
    rw [detect_parse_success h, hl]
  · decide

/-- Witness for C9 at the minimal envelope carrying OID 1.2.3.4.5. -/
theorem c9_witness :
    Detect envUnknown =
      some ⟨"Unknown OID: " ++ oidString [1, 2, 3, 4, 5], [1, 2, 3, 4, 5], false⟩ ∧
    GetOIDDescription [1, 2, 3, 4, 5] = "Unknown OID: " ++ oidString [1, 2, 3, 4, 5] :=
  c9_unknown_oid.1 envUnknown [1, 2, 3, 4, 5] (by decide) (by decide) (by decide)
    (by decide) (by decide) (by decide) (by decide) (by decide)

/-- A successful readTag returns either the low five bits of the tag byte or
a high-form tag number of at least 0x1f. -/
theorem readTag_spec (bytes : List Nat) (off b tag off2 : Nat)
    (h : readTag bytes off b = some (tag, off2)) :
    tag = b &&& 0x1f ∨ 0x1f ≤ tag := by
  unfold readTag at h
  split at h
  · split at h
    · exact absurd h (by simp)
    · split at h
      · exact absurd h (by simp)
      · simp only [Option.some.injEq, Prod.mk.injEq] at h
        right
        omega
  · simp only [Option.some.injEq, Prod.mk.injEq] at h
    left
    omega

/-- A successful parseTagAndLength at offset 0 read some first byte, and the
class, compound flag, and tag number of the result are determined by it. -/
theorem parseTagAndLength_some_head (bytes : List Nat) (t : TagLen) (off : Nat)
    (h : parseTagAndLength bytes 0 = some (t, off)) :
    ∃ b, bytes[0]? = some b ∧ t.tcls = b >>> 6 ∧
      t.isCompound = (b &&& 0x20 == 0x20) ∧ (t.tag = b &&& 0x1f ∨ 0x1f ≤ t.tag) := by
  unfold parseTagAndLength at h
  split at h
  · exact absurd h (by simp)
  · rename_i b hb
    split at h
    · exact absurd h (by simp)
    · split at h
      · exact absurd h (by simp)
      all_goals
        simp only [Option.some.injEq, Prod.mk.injEq] at h
        obtain ⟨ht, hoff⟩ := h
        exact ⟨b, hb, by rw [← ht], by rw [← ht], by
          rw [← ht]
          exact readTag_spec bytes (0 + 1) b _ _ (by assumption)⟩

set_option maxRecDepth 4096 in
/-- A byte below 256 whose class is universal, whose compound bit is set and
whose low-form tag is 16 must be 0x30. -/
theorem tagByteIs48 :
    ∀ b, b < 256 → b >>> 6 = 0 → (b &&& 0x20 == 0x20) = true → b &&& 0x1f = 16 →
      b = 48 := by
  decide

/-- Unmarshalling fails on every buffer whose first byte is not 0x30. -/
theorem unmarshal_head_ne (b : Nat) (rest : List Nat) (hb : b < 256)
    (hne : b ≠ 0x30) : unmarshalContentInfo (b :: rest) = none := by
  cases hTL : parseTagAndLength (b :: rest) 0 with
  | none => simp [unmarshalContentInfo, hTL]
  | some p =>
    obtain ⟨t, off⟩ := p
    obtain ⟨b2, hb2, hcls, hcomp, htag⟩ := parseTagAndLength_some_head _ _ _ hTL
    have hb2b : b2 = b := by
      simp only [List.getElem?_cons_zero, Option.some.injEq] at hb2
      omega
    subst hb2b
    have hnot : ¬(t.tcls = 0 ∧ t.tag = 16 ∧ t.isCompound = true) := by
      rintro ⟨h1, h2, h3⟩
      rcases htag with h4 | h4
      · exact hne (tagByteIs48 b2 hb (by omega) (by rw [← hcomp]; exact h3) (by omega))
      · omega
    simp [unmarshalContentInfo, hTL, hnot]

set_option maxRecDepth 4096 in
/-- Unmarshalling fails on every single-byte buffer. -/
theorem unmarshal_one : ∀ b, b < 256 → unmarshalContentInfo [b] = none := by
  decide

set_option maxRecDepth 8192 in
/-- Unmarshalling fails on every two-byte buffer starting with 0x30. -/
theorem unmarshal_two48 : ∀ c, c < 256 → unmarshalContentInfo [0x30, c] = none := by
  decide

/-- The encrypted PKCS#12 heuristic rejects buffers below its length floor. -/
theorem isEnc_short (data : List Nat) (h : data.length < 20) :
    isEncryptedPKCS12 data = false := by
  unfold isEncryptedPKCS12
  rw [if_pos h]

/-- The encrypted PKCS#12 heuristic rejects buffers not led by 0x30. -/
theorem isEnc_head (data : List Nat) (h : data[0]? ≠ some 0x30) :
    isEncryptedPKCS12 data = false := by
  unfold isEncryptedPKCS12
  by_cases h20 : data.length < 20
  · rw [if_pos h20]
  · rw [if_neg h20, if_pos h]

/-- The heuristic user-key variant rejects buffers below eight bytes or not
led by 0x30. -/
theorem isUserKey_key_gate (data : List Nat)
    (h : data.length < 8 ∨ data[0]? ≠ some 0x30) :
    IsUserKeyPKCS12key data = false := by
  unfold IsUserKeyPKCS12key
  rcases h with h | h
  · rw [if_pos h]
  · by_cases h8 : data.length < 8
    · rw [if_pos h8]
    · rw [if_neg h8, if_pos h]

/-- C4: on every buffer of fewer than three bytes, or whose first byte is
not the SEQUENCE tag 0x30, Detect returns an error and all the boolean
predicates of the package return false.  Totality over arbitrary byte
buffers is inherent: every embedded operation is a total Lean function of
the buffer. -/
theorem c4_short_or_nonsequence_rejected (data : List Nat)
    (hbytes : ∀ x ∈ data, x < 256)
    (h : data.length < 3 ∨ data[0]? ≠ some 0x30) :
    Detect data = none ∧ IsPKCS7Data data = false ∧ IsPKCS7SignedData data = false ∧
    IsPKCS7EnvelopedData data = false ∧ IsPKCS12 data = false ∧
    IsUserKeyPKCS12 data = false ∧ IsUserKeyPKCS12key data = false ∧
    IsNCAKeyPKCS12 data = false := by
  have hU : unmarshalContentInfo data = none := by
    rcases h with h | h
    · rcases data with _ | ⟨b, _ | ⟨c, _ | ⟨d, rest⟩⟩⟩
      · rfl
      · exact unmarshal_one b (hbytes b (by simp))
      · by_cases hb : b = 0x30
        · subst hb
          exact unmarshal_two48 c (hbytes c (by simp))
        · exact unmarshal_head_ne b [c] (hbytes b (by simp)) hb
      · simp only [List.length_cons] at h
        omega
    · rcases data with _ | ⟨b, rest⟩
      · rfl
      · refine unmarshal_head_ne b rest (hbytes b (by simp)) ?_
        intro hb
        exact h (by simp [hb])
  have hE : isEncryptedPKCS12 data = false := by
    rcases h with h | h
    · exact isEnc_short data (by omega)
    · exact isEnc_head data h
  have hD : Detect data = none := by simp [Detect, hU, hE]
  have hK : IsUserKeyPKCS12key data = false := by
    rcases h with h | h
    · exact isUserKey_key_gate data (Or.inl (by omega))
    · exact isUserKey_key_gate data (Or.inr h)
  refine ⟨hD, ?_, ?_, ?_, ?_, ?_, hK, ?_⟩
  · simp [IsPKCS7Data, hD]
  · simp [IsPKCS7SignedData, hD]
  · simp [IsPKCS7EnvelopedData, hD]
  · simp [IsPKCS12, hD]
  · simp [IsUserKeyPKCS12, hD]
  · simp [IsNCAKeyPKCS12, hK]

/-- Witness for C4 at the three-byte buffer 0x01 0x02 0x03 of the tests. -/
theorem c4_witness :
    Detect [1, 2, 3] = none ∧ IsPKCS7Data [1, 2, 3] = false ∧
    IsPKCS7SignedData [1, 2, 3] = false ∧ IsPKCS7EnvelopedData [1, 2, 3] = false ∧
    IsPKCS12 [1, 2, 3] = false ∧ IsUserKeyPKCS12 [1, 2, 3] = false ∧
    IsUserKeyPKCS12key [1, 2, 3] = false ∧ IsNCAKeyPKCS12 [1, 2, 3] = false :=
  c4_short_or_nonsequence_rejected [1, 2, 3] (by decide) (Or.inr (by decide))

/-- C2 amended: restricted to buffers on which the strict ASN.1 parse fails
and where the version pattern occurs at an offset the scan inspects (its
window ending strictly before the end of the buffer), a buffer starting
with 0x30 that contains KEY and has length between 20 and 100000 is
classified as encrypted PKCS#12 with IsEncrypted true, and IsPKCS12
returns true on it. -/
theorem c2_amended_encrypted_detection (data : List Nat)
    (hparse : unmarshalContentInfo data = none)
    (hhead : data[0]? = some 0x30)
    (hver : ∃ i, i + 3 < data.length ∧ versionFoundAt data i = true)
    (hkey : bytesContains data keyBytes = true)
    (hlo : 20 ≤ data.length) (hhi : data.length ≤ 100000) :
    Detect data = some ⟨TypeEncryptedPKCS12, [], true⟩ ∧ IsPKCS12 data = true := by
  obtain ⟨i, hi, hv⟩ := hver
  have hscan : scanVersion data = true := scanVersion_intro data i hi hv
  have hE : isEncryptedPKCS12 data = true := by
    unfold isEncryptedPKCS12
    rw [if_neg (by omega), if_neg (by simp [hhead]), if_neg (by simp [hscan])]
    by_cases hsig : bytesContains data pkcs12Signature = true
    · rw [if_pos hsig]
    · rw [if_neg hsig, if_pos (by simp [hkey])]
  have hD : Detect data = some ⟨TypeEncryptedPKCS12, [], true⟩ := by
    simp [Detect, hparse, hE]
  refine ⟨hD, ?_⟩
  unfold IsPKCS12
  rw [hD]
  simp

/-- Witness for the amended C2 at a concrete 20-byte buffer. -/
theorem c2_amended_witness :
    Detect keyHeuristicBuf = some ⟨TypeEncryptedPKCS12, [], true⟩ ∧
    IsPKCS12 keyHeuristicBuf = true :=
  c2_amended_encrypted_detection keyHeuristicBuf (by decide) (by decide)
    ⟨2, by decide, by decide⟩ (by decide) (by decide) (by decide)

/-- C5 amended: the delegating IsUserKeyPKCS12 variant, defined in the same
file as IsPKCS12, returns the same boolean as IsPKCS12 on every input; the
heuristic variant of the key-detection file does not (see the C5
counterexample). -/
theorem c5_amended_userkey_eq_ispkcs12 (data : List Nat) :
    IsUserKeyPKCS12 data = IsPKCS12 data := rfl

/-- C7 amended: a buffer passing the structural gates (leading 0x30, version
pattern found by the scan) with none of the marker byte sequences present
and length between 20 and 100000 satisfies the heuristic user-key check of
the key-detection file; on such buffers the general isEncryptedPKCS12
check of the fallback file returns true exactly when the length is
strictly greater than 100 and strictly less than 100000. -/
theorem c7_amended_size_fallback (data : List Nat)
    (hhead : data[0]? = some 0x30)
    (hver : ∃ i, i + 3 < data.length ∧ versionFoundAt data i = true)
    (hsig : bytesContains data pkcs12Signature = false)
    (hkey : bytesContains data keyBytes = false)
    (hpk : bytesContains data privateKeyBytes = false)
    (hg1 : bytesContains data gostBytes = false)
    (hg2 : bytesContains data gostCyrBytes = false)
    (hg3 : bytesContains data gostLowerBytes = false)
    (hlo : 20 ≤ data.length) (hhi : data.length ≤ 100000) :
    IsUserKeyPKCS12key data = true ∧
    isEncryptedPKCS12 data =
      (decide (100 < data.length) && decide (data.length < 100000)) := by
  obtain ⟨i, hi, hv⟩ := hver
  have hscan : scanVersion data = true := scanVersion_intro data i hi hv
  constructor
  · unfold IsUserKeyPKCS12key
    rw [if_neg (by omega), if_neg (by simp [hhead])]
    by_cases hds : detectSaysPkcs12 data = true
    · rw [if_pos hds]
    · rw [if_neg hds, if_neg (by simp [hscan]),
        if_neg (by omega : ¬(data.length < 20 ∨ 100000 < data.length)),
        if_neg (by simp [hg1, hg2, hg3]), if_neg (by simp [hsig]),
        if_neg (by simp [hkey, hpk])]
      exact hscan
  · unfold isEncryptedPKCS12
    rw [if_neg (by omega), if_neg (by simp [hhead]), if_neg (by simp [hscan]),
      if_neg (by simp [hsig]), if_neg (by simp [hkey, hpk]), hscan]
    simp

set_option maxRecDepth 16384 in
/-- Witness for the amended C7 at a concrete 150-byte buffer with no
markers. -/
theorem c7_amended_witness :
    IsUserKeyPKCS12key plainVersionBuf = true ∧
    isEncryptedPKCS12 plainVersionBuf = true := by
  have h := c7_amended_size_fallback plainVersionBuf (by decide)
    ⟨2, by decide, by decide⟩ (by decide) (by decide) (by decide) (by decide)
    (by decide) (by decide) (by decide) (by decide)
  exact ⟨h.1, h.2.trans (by decide)⟩

/-- C8 amended: for a buffer satisfying the heuristic user-key check, the
regional predicate returns true when the buffer contains any of the six
exact spellings the code recognizes: GOST, the Cyrillic GOST, Kalkan,
kalkan, KALKAN, or the Cyrillic Kalkan (but not other letter cases such as
lowercase gost, see the C8 counterexample); and when none of the vendor or
algorithm markers nor the Kazakhstan byte signature is present, the
regional predicate returns false even though the general check holds. -/
theorem c8_amended_regional (data : List Nat)
    (hgen : IsUserKeyPKCS12key data = true) :
    ((bytesContains data gostBytes = true ∨ bytesContains data gostCyrBytes = true ∨
      bytesContains data kalkanBytes = true ∨ bytesContains data kalkanLowerBytes = true ∨
      bytesContains data kalkanUpperBytes = true ∨ bytesContains data kalkanCyrBytes = true) →
      IsNCAKeyPKCS12 data = true) ∧
    (bytesContains data gostBytes = false → bytesContains data gostCyrBytes = false →
     bytesContains data kalkanBytes = false → bytesContains data kalkanLowerBytes = false →
     bytesContains data kalkanUpperBytes = false → bytesContains data kalkanCyrBytes = false →
     bytesContains data kazakhstanSignature = false → IsNCAKeyPKCS12 data = false) := by
  constructor
  · intro hm
    unfold IsNCAKeyPKCS12
    rw [if_neg (by simp [hgen])]
    by_cases hg : (bytesContains data gostBytes || bytesContains data gostCyrBytes) = true
    · rw [if_pos hg]
    · have hk : (bytesContains data kalkanBytes || bytesContains data kalkanLowerBytes
          || bytesContains data kalkanUpperBytes || bytesContains data kalkanCyrBytes) = true := by
        rcases hm with h | h | h | h | h | h
        · exact absurd (by simp [h]) hg
        · exact absurd (by simp [h]) hg
        · simp [h]
        · simp [h]
        · simp [h]
        · simp [h]
      rw [if_neg hg, if_pos hk]
  · intro h1 h2 h3 h4 h5 h6 h7
    unfold IsNCAKeyPKCS12
    rw [if_neg (by simp [hgen]), if_neg (by simp [h1, h2]),
      if_neg (by simp [h3, h4, h5, h6])]
    exact h7

set_option maxRecDepth 8192 in
/-- Witness for the amended C8 at a concrete buffer containing GOST. -/
theorem c8_amended_witness :
    IsUserKeyPKCS12key upperGostBuf = true ∧ IsNCAKeyPKCS12 upperGostBuf = true := by
  have hgen : IsUserKeyPKCS12key upperGostBuf = true := by decide
  exact ⟨hgen, (c8_amended_regional upperGostBuf hgen).1 (Or.inl (by decide))⟩

set_option maxRecDepth 8192 in
/-- Companion check that the amended C8 positive direction also fires
through the Kalkan branch: lowerGostBuf extended with the Cyrillic Kalkan
marker is accepted. -/
theorem c8_amended_kalkan_example :
    IsNCAKeyPKCS12 ([0x30, 0x02, 0x02, 0x01, 0x03, 0xD0, 0x9A, 0xD0, 0xB0, 0xD0,
      0xBB, 0xD0, 0xBA, 0xD0, 0xB0, 0xD0, 0xBD] ++ List.replicate 13 0x4B) = true := by
  decide

/-- The strict-detection shortcut of the heuristic user-key variant holds
exactly when the strict parse itself yields the PKCS#12 OID: the fallback
outcome of Detect carries the empty OID and never matches. -/
theorem detectSays_eq_strict (data : List Nat) :
    detectSaysPkcs12 data = decide (unmarshalContentInfo data = some PKCS12OID) := by
  unfold detectSaysPkcs12
  cases hu : unmarshalContentInfo data with
  | some oid =>
    rw [detect_parse_success hu]
    simp
  | none =>
    unfold Detect
    rw [hu]
    by_cases hE : isEncryptedPKCS12 data = true
    · rw [if_pos hE]
      simp [PKCS12OID]
    · rw [if_neg hE]
      simp

/-- C10: in the heuristic IsUserKeyPKCS12 variant the marker checks never
change the returned value; the function agrees on every input with the
predicate of length at least 8, leading 0x30, and strict-PKCS#12-OID or
version-pattern-found with length between 20 and 100000. -/
theorem c10_userkey_equiv_spec (data : List Nat) :
    IsUserKeyPKCS12key data = userKeyPolicySpec data := by
  unfold IsUserKeyPKCS12key userKeyPolicySpec
  by_cases h8 : data.length < 8
  · rw [if_pos h8]
    have h8d : decide (8 ≤ data.length) = false := by
      simp
      omega
    simp [h8d]
  · rw [if_neg h8]
    have h8d : decide (8 ≤ data.length) = true := by
      simp
      omega
    by_cases hhead : data[0]? = some 0x30
    · rw [if_neg (by simp [hhead]), detectSays_eq_strict]
      by_cases hds : unmarshalContentInfo data = some PKCS12OID
      · simp [hds, h8d, hhead]
      · rw [if_neg (by simp [hds])]
        by_cases hscan : scanVersion data = true
        · by_cases hrange : data.length < 20 ∨ 100000 < data.length
          · rw [if_neg (by simp [hscan]), if_pos hrange]
            rcases hrange with hr | hr
            · have : decide (20 ≤ data.length) = false := by
                simp
                omega
              simp [this, hds, hscan]
            · have : decide (data.length ≤ 100000) = false := by
                simp
                omega
              simp [this, hds, hscan]
          · rw [if_neg (by simp [hscan]), if_neg hrange, hscan]
            have h20 : decide (20 ≤ data.length) = true := by
              simp
              omega
            have h100k : decide (data.length ≤ 100000) = true := by
              simp
              omega
            simp [h20, h100k, h8d, hhead, hds, ite_self]
        · have hscanf : scanVersion data = false := by
            cases hq : scanVersion data
            · rfl
            · exact absurd hq hscan
          rw [if_pos (by simp [hscanf])]
          simp [hscanf, hds, h8d, hhead]
    · rw [if_pos hhead]
      have : decide (data[0]? = some 0x30) = false := by
        simp [hhead]
      simp [this]
